import Mathlib

/-!
# Verification of the quant-analyzer screening engine

Shallow embedding of `src/domain/service/screening_service.py` (class
`QuantScreeningService`) together with the domain models
`src/domain/model/criteria.py` (`Criteria`, `QoQCriteria`) and
`src/domain/model/data_models.py` (`FinancialData`).

Modelling conventions:

* A pandas cell is a float that is either a genuine number or `NaN`
  (missing).  We model a cell as `Cell := Option ℚ`, `none` standing for
  `NaN`.
* Intermediate float values of the growth pipeline can additionally be
  `+inf` / `-inf`, so they are modelled by the four-constructor type
  `FVal` with IEEE-754-style comparison and division semantics
  (comparisons with `NaN` are false, `x / 0` is a signed infinity or
  `NaN`, `NaN` propagates through arithmetic).
* A pandas `Series` indexed by stock name is a `List (String × Cell)`;
  a `DataFrame` is a `Table`: a list of column labels plus rows of
  labelled cells.  Two series extracted from the same `DataFrame` share
  one index, so elementwise numpy operations on them are modelled by
  zipping the lists positionally.
* `DataFrame.sort_values(by=k, ascending=False)` is implemented by
  pandas (`nargsort`) as an ascending argsort of the key column followed
  by reversal of the resulting order (`indexer[::-1]`); numpy's sort
  places `NaN` last.  The default `kind='quicksort'` argsort is
  deterministic but not stable in general (it degenerates to a stable
  insertion sort only on small arrays), so the order among equal keys is
  implementation-defined.  We model the sort as
  `(List.insertionSort about the key).reverse`, with the key order
  `npLe` putting `-inf` first and `NaN` last (numpy's sort order).  The
  facts proved below about the sort are membership, row contents and
  descending key order, which hold for pandas regardless of tie
  handling; the exact tie order of the model is relied on only in
  concrete frames of at most two rows, where numpy's argsort really is
  the stable insertion sort.
-/

/-- A pandas cell: a rational number, or `none` for `NaN`/missing. -/
abbrev Cell : Type := Option ℚ

/-- A float value of the growth pipeline: finite, `+inf`, `-inf` or `NaN`. -/
inductive FVal : Type
  | num (x : ℚ)
  | pinf
  | ninf
  | nan
  deriving DecidableEq, Repr

namespace FVal

/-- IEEE-style `>=`: any comparison with `NaN` is false, `+inf >= y` holds
for every non-`NaN` `y`, `x >= +inf` only for `x = +inf`.  This is the
semantics of numpy's elementwise `rate >= min_growth`. -/
def fge : FVal → FVal → Bool
  | nan, _ => false
  | _, nan => false
  | pinf, _ => true
  | _, pinf => false
  | num x, num y => decide (y ≤ x)
  | num _, ninf => true
  | ninf, ninf => true
  | ninf, num _ => false

/-- numpy's sort order on floats: `-inf < finite < +inf`, with `NaN`
sorted after everything (numpy sorts `NaN` to the end). -/
def npLe : FVal → FVal → Bool
  | ninf, _ => true
  | _, nan => true
  | num x, num y => decide (x ≤ y)
  | num _, pinf => true
  | pinf, pinf => true
  | _, _ => false

/-- Subtracting the constant 1, as in `(target / base) - 1`:  infinities
and `NaN` absorb the subtraction. -/
def fsub1 : FVal → FVal
  | num x => num (x - 1)
  | pinf => pinf
  | ninf => ninf
  | nan => nan

/-- Multiplication by the constant 100, as in `rate * 100`. -/
def fmul100 : FVal → FVal
  | num x => num (x * 100)
  | pinf => pinf
  | ninf => ninf
  | nan => nan

end FVal

/-- Float division `t / b` of two cells, with numpy semantics: `NaN`
propagates; division by zero gives a signed infinity (or `NaN` for
`0/0`). -/
def cellDiv (t b : Cell) : FVal :=
  match t, b with
  | some x, some y =>
      if y = 0 then
        if 0 < x then FVal.pinf else if x < 0 then FVal.ninf else FVal.nan
      else FVal.num (x / y)
  | _, _ => FVal.nan

/-- The numpy elementwise test `base > 0` on one cell: false on `NaN`. -/
def cellGt0 : Cell → Bool
  | some x => decide (0 < x)
  | none => false

/-- The numpy elementwise test `base <= 0` on one cell: false on `NaN`. -/
def cellLe0 : Cell → Bool
  | some x => decide (x ≤ 0)
  | none => false

/-- One element of `QuantScreeningService._safe_growth_rate`
(screening_service.py lines 178-204): computes
`growth = (target / base) - 1` and then
`np.select([(base > 0), (base <= 0) & (target > 0)], [growth, np.inf],
default=np.nan)`, which picks the first condition that holds. -/
def safe_growth_rate_cell (base target : Cell) : FVal :=
  let growth := (cellDiv target base).fsub1
  if cellGt0 base then growth
  else if cellLe0 base && cellGt0 target then FVal.pinf
  else FVal.nan

/-- `QuantScreeningService._safe_growth_rate` over two whole series.  The
two series are extracted from the same `DataFrame`, hence share one
index; numpy's elementwise alignment is the positional zip. -/
def safe_growth_rate (base target : List (String × Cell)) :
    List (String × FVal) :=
  (base.zip target).map fun p => (p.1.1, safe_growth_rate_cell p.1.2 p.2.2)

/-- Banker's rounding (round half to even) of a rational to an integer,
the rounding mode of `numpy.round`. -/
def roundHalfEven (q : ℚ) : ℤ :=
  let f := ⌊q⌋
  let r := q - (f : ℚ)
  if r < 1 / 2 then f
  else if 1 / 2 < r then f + 1
  else if f % 2 = 0 then f else f + 1

/-- `Series.round(2)`: round to two decimal places, half to even. -/
def round2 (q : ℚ) : ℚ := (roundHalfEven (q * 100) : ℚ) / 100

/-- `.round(2)` lifted to pipeline float values: infinities and `NaN` are
fixed points of rounding. -/
def fround2 : FVal → FVal
  | FVal.num x => FVal.num (round2 x)
  | FVal.pinf => FVal.pinf
  | FVal.ninf => FVal.ninf
  | FVal.nan => FVal.nan

/-- One aligned element of the builder's three input series
(`base`, `target`, `rate`), labelled by the shared stock index. -/
structure GrowthEntry : Type where
  stock : String
  base : Cell
  target : Cell
  rate : FVal
  deriving DecidableEq, Repr

/-- One row of the result `DataFrame` produced by
`_build_qoq_result_dataframe`: stock index, the `(Base)` and `(Target)`
columns (copied cells), and the `Growth_Rate(%)` column. -/
structure ResultRow : Type where
  stock : String
  baseV : Cell
  targetV : Cell
  growthPct : FVal
  deriving DecidableEq, Repr

/-- The row emitted for one passing stock: base and target cells are
copied unchanged, the growth column is `(rate * 100).round(2)`. -/
def emitRow (e : GrowthEntry) : ResultRow :=
  ⟨e.stock, e.base, e.target, fround2 e.rate.fmul100⟩

/-- Ascending comparison of result rows by the `Growth_Rate(%)` column,
in numpy's sort order. -/
def rowLe (a b : ResultRow) : Prop := FVal.npLe a.growthPct b.growthPct = true

instance : DecidableRel rowLe := fun _ _ => decEq _ _

/-- `QuantScreeningService._build_qoq_result_dataframe`
(screening_service.py lines 144-176): filter by
`passed_mask = (rate >= min_growth)` (IEEE `>=`, so `NaN` never passes),
emit one row per passing stock, then
`sort_values(by="Growth_Rate(%)", ascending=False)`, which pandas
executes as an ascending argsort of the key followed by reversal (the
argsort modelled as a stable insertion sort; see the header note on tie
order). -/
def build_qoq_result_dataframe (entries : List GrowthEntry) (min_growth : ℚ) :
    List ResultRow :=
  let passed := entries.filter fun e => e.rate.fge (FVal.num min_growth)
  let rows := passed.map emitRow
  (List.insertionSort rowLe rows).reverse

/-- A pandas `DataFrame`: column labels, and rows of labelled cells keyed
by the stock index.  A label absent from a row's cell list reads as
`NaN`. -/
structure Table : Type where
  columns : List String
  data : List (String × List (String × Cell))
  deriving Repr

/-- `df[quarter]`: the column of `df` labelled `q`, as a series over the
stock index. -/
def columnOf (df : Table) (q : String) : List (String × Cell) :=
  df.data.map fun p => (p.1, ((p.2.lookup q).getD none))

/-- `domain/model/data_models.py`: the immutable bundle of the three
metric tables. -/
structure FinancialData : Type where
  sales : Table
  operating_profit : Table
  net_income : Table
  deriving Repr

/-- `domain/model/criteria.py` `QoQCriteria`: a frozen dataclass. -/
structure QoQCriteria : Type where
  metric : String
  base_quarter : String
  target_quarter : String
  min_growth_pct : ℚ
  deriving DecidableEq, Repr

/-- The abstract class `Criteria`: its only concrete subclass in the
repository is `QoQCriteria` (whose `type` property is `"QoQ_Growth"`),
but the dispatcher is written against the abstract `type` tag, so the
model also admits an unknown subclass carrying an arbitrary tag. -/
inductive Criteria : Type
  | qoq (c : QoQCriteria)
  | unknown (kind : String)
  deriving DecidableEq, Repr

/-- The `type` property used for dispatch. -/
def Criteria.type : Criteria → String
  | .qoq _ => "QoQ_Growth"
  | .unknown k => k

/-- The exceptions that can escape an evaluator and reach the
`except Exception` handler of `_execute_strategy`:
`ValueError` for an unknown metric, `KeyError` for an unknown
quarter column, and the `AttributeError` raised when
`_execute_qoq_growth` is applied to a criteria object that lacks the
`QoQCriteria` fields. -/
inductive EvalError : Type
  | unknownMetric (metric : String)
  | unknownPeriod (quarter : String)
  | attributeError
  deriving DecidableEq, Repr

/-- `QuantScreeningService._metric_map` (screening_service.py lines
43-47): dict lookup from metric name to metric table. -/
def metric_map (fd : FinancialData) (m : String) : Option Table :=
  if m = "영업이익" then some fd.operating_profit
  else if m = "매출액" then some fd.sales
  else if m = "당기순이익" then some fd.net_income
  else none

/-- `QuantScreeningService._get_quarterly_data` (lines 127-142): raises
`KeyError` when the quarter is not among the columns, otherwise returns
the column. -/
def get_quarterly_data (df : Table) (quarter : String) :
    Except EvalError (List (String × Cell)) :=
  if quarter ∈ df.columns then .ok (columnOf df quarter)
  else .error (.unknownPeriod quarter)

/-- Pair the base and target series (which share the table's stock
index) with the computed growth rate, producing the builder's aligned
input. -/
def mkEntries (base target : List (String × Cell)) : List GrowthEntry :=
  (base.zip target).map fun p =>
    ⟨p.1.1, p.1.2, p.2.2, safe_growth_rate_cell p.1.2 p.2.2⟩

/-- `QuantScreeningService._execute_qoq_growth` (lines 86-114): resolve
the metric (raising `ValueError` when absent), extract the two quarter
columns (raising `KeyError` when absent, base first), compute growth
rates and build the result. -/
def execute_qoq_growth (fd : FinancialData) (c : QoQCriteria) :
    Except EvalError (List ResultRow) :=
  match metric_map fd c.metric with
  | none => .error (.unknownMetric c.metric)
  | some df =>
      match get_quarterly_data df c.base_quarter with
      | .error e => .error e
      | .ok base =>
          match get_quarterly_data df c.target_quarter with
          | .error e => .error e
          | .ok target =>
              .ok (build_qoq_result_dataframe (mkEntries base target)
                c.min_growth_pct)

/-- `QuantScreeningService._execution_map` (lines 49-51) has the single
key `"QoQ_Growth"`; this is the `dict.get` hit test. -/
def execution_map_has (kind : String) : Bool := kind = "QoQ_Growth"

/-- Running the executor registered for `"QoQ_Growth"` on a criteria
object: on an object of the unknown subclass the field accesses inside
`_execute_qoq_growth` raise `AttributeError`. -/
def run_executor (fd : FinancialData) : Criteria →
    Except EvalError (List ResultRow)
  | .qoq c => execute_qoq_growth fd c
  | .unknown _ => .error .attributeError

/-- The console reports printed by `_execute_strategy`: either the
"unknown type" message (line 77) or the "execution error" message
(line 83), both carrying the strategy's name. -/
inductive Report : Type
  | unknownKind (name kind : String)
  | execError (name : String) (e : EvalError)
  deriving DecidableEq, Repr

/-- `QuantScreeningService._execute_strategy` (lines 64-84): look the
criteria's `type` up in the execution map; with no executor, report and
return an empty frame; otherwise run the executor under
`except Exception`, reporting and returning an empty frame on any
error.  The function itself never fails. -/
def execute_strategy (fd : FinancialData) (name : String) (c : Criteria) :
    List Report × List ResultRow :=
  if ¬ execution_map_has c.type then ([.unknownKind name c.type], [])
  else
    match run_executor fd c with
    | .ok rows => ([], rows)
    | .error e => ([.execError name e], [])

/-- `QuantScreeningService.run_all_active_strategies` (lines 53-62):
run every loaded strategy through `_execute_strategy` and collect
`{strategy_name: result}` in load order. -/
def run_all_active_strategies (fd : FinancialData)
    (strategies : List (String × Criteria)) :
    List (String × List ResultRow) :=
  strategies.map fun p => (p.1, (execute_strategy fd p.1 p.2).2)

/-- The `QuantScreeningService` object after `__init__`: the financial
data bundle and the active strategies, both loaded exactly once. -/
structure QuantScreeningService : Type where
  financial_data : FinancialData
  active_strategies : List (String × Criteria)

/-- `run_all_active_strategies` as a method call: it reads the service
state and writes none of it, so it returns the unchanged state alongside
the output. -/
def QuantScreeningService.run (s : QuantScreeningService) :
    List (String × List ResultRow) × QuantScreeningService :=
  (run_all_active_strategies s.financial_data s.active_strategies, s)

/-! ## Helper lemmas -/

theorem npLe_total (a b : FVal) : FVal.npLe a b = true ∨ FVal.npLe b a = true := by
  cases a <;> cases b <;> simp [FVal.npLe] <;> exact le_total _ _

theorem npLe_trans {a b c : FVal} (hab : FVal.npLe a b = true)
    (hbc : FVal.npLe b c = true) : FVal.npLe a c = true := by
  cases a <;> cases b <;> cases c <;>
    simp_all [FVal.npLe] <;> exact le_trans hab hbc

instance : IsTotal ResultRow rowLe := ⟨fun a b => npLe_total a.growthPct b.growthPct⟩

instance : IsTrans ResultRow rowLe := ⟨fun _ _ _ => npLe_trans⟩

theorem mem_build_iff (entries : List GrowthEntry) (m : ℚ) (r : ResultRow) :
    r ∈ build_qoq_result_dataframe entries m ↔
      ∃ e ∈ entries, e.rate.fge (FVal.num m) = true ∧ r = emitRow e := by
  unfold build_qoq_result_dataframe
  rw [List.mem_reverse, (List.perm_insertionSort rowLe _).mem_iff, List.mem_map]
  constructor
  · rintro ⟨e, he, rfl⟩
    rw [List.mem_filter] at he
    exact ⟨e, he.1, he.2, rfl⟩
  · rintro ⟨e, he, hp, rfl⟩
    exact ⟨e, List.mem_filter.mpr ⟨he, hp⟩, rfl⟩

/-! ## Claims about the growth calculator -/

/-- C1: for every pair of inputs (base, target), each a number or
missing, the growth computation returns `target/base - 1` when
`base > 0` (both present), `+inf` when `base <= 0` and `target > 0`
(both present), and `NaN` (undefined) in every remaining case: base
missing, target missing, or `base <= 0` with `target <= 0`. -/
theorem computeGrowth_policy (base target : Cell) :
    (∀ b t : ℚ, base = some b → 0 < b → target = some t →
      safe_growth_rate_cell base target = FVal.num (t / b - 1)) ∧
    (∀ b t : ℚ, base = some b → b ≤ 0 → target = some t → 0 < t →
      safe_growth_rate_cell base target = FVal.pinf) ∧
    ((base = none ∨ target = none ∨
        ∃ b t : ℚ, base = some b ∧ target = some t ∧ b ≤ 0 ∧ t ≤ 0) →
      safe_growth_rate_cell base target = FVal.nan) := by
  refine ⟨?_, ?_, ?_⟩
  · rintro b t rfl hb rfl
    simp [safe_growth_rate_cell, cellGt0, cellDiv, FVal.fsub1, hb, ne_of_gt hb]
  · rintro b t rfl hb rfl ht
    simp [safe_growth_rate_cell, cellGt0, cellLe0, not_lt.mpr hb, hb, ht]
  · rintro (rfl | rfl | ⟨b, t, rfl, rfl, hb, ht⟩)
    · simp [safe_growth_rate_cell, cellGt0, cellLe0, cellDiv]
    · cases base with
      | none => simp [safe_growth_rate_cell, cellGt0, cellLe0, cellDiv]
      | some b =>
          by_cases hb : 0 < b
          · simp [safe_growth_rate_cell, cellGt0, cellDiv, hb, FVal.fsub1]
          · simp [safe_growth_rate_cell, cellGt0, hb]
    · simp [safe_growth_rate_cell, cellGt0, cellLe0, not_lt.mpr hb,
        not_lt.mpr ht, hb]

/-- Witness for `computeGrowth_policy`, instantiating all three branches
at the concrete inputs of the spec's scenarios: (100, 150) grows by 1/2,
(-50, 20) is loss-to-profit, (0, 0) is undefined. -/
theorem computeGrowth_policy_witness :
    safe_growth_rate_cell (some 100) (some 150) = FVal.num (1 / 2) ∧
    safe_growth_rate_cell (some (-50)) (some 20) = FVal.pinf ∧
    safe_growth_rate_cell (some 0) (some 0) = FVal.nan := by
  refine ⟨?_, ?_, ?_⟩
  · have h := (computeGrowth_policy (some 100) (some 150)).1 100 150 rfl
      (by norm_num) rfl
    rw [h]; norm_num
  · exact (computeGrowth_policy (some (-50)) (some 20)).2.1 (-50) 20 rfl
      (by norm_num) rfl (by norm_num)
  · exact (computeGrowth_policy (some 0) (some 0)).2.2
      (Or.inr (Or.inr ⟨0, 0, rfl, rfl, le_refl 0, le_refl 0⟩))

/-- C9: the growth computation is total and never fails: every pair of
cells — zero, negative, or missing on either side — is mapped to a
finite number, `+inf`, or `NaN` (undefined); in particular `-inf` is
unreachable and no case is an error. -/
theorem computeGrowth_total (base target : Cell) :
    (∃ x : ℚ, safe_growth_rate_cell base target = FVal.num x) ∨
    safe_growth_rate_cell base target = FVal.pinf ∨
    safe_growth_rate_cell base target = FVal.nan := by
  cases base with
  | none => right; right; simp [safe_growth_rate_cell, cellGt0, cellLe0]
  | some b =>
      by_cases hb : 0 < b
      · cases target with
        | none =>
            right; right
            simp [safe_growth_rate_cell, cellGt0, cellDiv, hb, FVal.fsub1]
        | some t =>
            left
            exact ⟨t / b - 1, by
              simp [safe_growth_rate_cell, cellGt0, cellDiv, hb,
                ne_of_gt hb, FVal.fsub1]⟩
      · have hgb : cellGt0 (some b) = false := by simp [cellGt0, hb]
        have hlb : cellLe0 (some b) = true := by simp [cellLe0, not_lt.1 hb]
        by_cases ht : cellGt0 target
        · right; left
          simp [safe_growth_rate_cell, hgb, hlb, ht]
        · right; right
          simp [safe_growth_rate_cell, hgb, hlb, ht]

/-! ## Claims about the result builder -/

theorem fge_num_iff (v : FVal) (m : ℚ) :
    v.fge (FVal.num m) = true ↔
      (v = FVal.pinf ∨ ∃ x : ℚ, v = FVal.num x ∧ m ≤ x) := by
  cases v <;> simp [FVal.fge]

theorem fge_num_mono {v : FVal} {t1 t2 : ℚ} (h : t1 ≤ t2)
    (hv : v.fge (FVal.num t2) = true) : v.fge (FVal.num t1) = true := by
  cases v <;> simp_all [FVal.fge]
  exact le_trans h hv

/-- C2: the builder keeps exactly the stocks whose growth is defined and
at least the threshold: a stock appears in the output iff its entry's
rate is `+inf` or a finite number `≥ min_growth`; moreover `+inf`
passes every finite threshold and `NaN` (undefined) passes none,
negative thresholds included. -/
theorem buildResults_keeps_exactly (entries : List GrowthEntry) (m : ℚ)
    (s : String) :
    ((∃ r ∈ build_qoq_result_dataframe entries m, r.stock = s) ↔
      ∃ e ∈ entries, e.stock = s ∧
        (e.rate = FVal.pinf ∨ ∃ x : ℚ, e.rate = FVal.num x ∧ m ≤ x)) ∧
    FVal.pinf.fge (FVal.num m) = true ∧
    FVal.nan.fge (FVal.num m) = false := by
  refine ⟨?_, rfl, rfl⟩
  constructor
  · rintro ⟨r, hr, rfl⟩
    obtain ⟨e, he, hp, rfl⟩ := (mem_build_iff entries m _).1 hr
    exact ⟨e, he, rfl, (fge_num_iff _ _).1 hp⟩
  · rintro ⟨e, he, hs, hp⟩
    exact ⟨emitRow e, (mem_build_iff entries m _).2
      ⟨e, he, (fge_num_iff _ _).2 hp, rfl⟩, hs⟩

/-- Witness for `buildResults_keeps_exactly` at a two-entry list: the
`NaN` entry is dropped even under the negative threshold `-1` and the
finite entry is kept. -/
theorem buildResults_keeps_exactly_witness :
    (∃ r ∈ build_qoq_result_dataframe
        [⟨"A", some 100, some 150, FVal.num (1 / 2)⟩,
         ⟨"B", some 0, some 0, FVal.nan⟩] (-1), r.stock = "A") ∧
    ¬ (∃ r ∈ build_qoq_result_dataframe
        [⟨"A", some 100, some 150, FVal.num (1 / 2)⟩,
         ⟨"B", some 0, some 0, FVal.nan⟩] (-1), r.stock = "B") := by
  constructor
  · exact (buildResults_keeps_exactly _ (-1) "A").1.mpr
      ⟨_, List.mem_cons_self _ _, rfl,
        Or.inr ⟨1 / 2, rfl, by norm_num⟩⟩
  · intro h
    obtain ⟨e, he, hs, hp⟩ := (buildResults_keeps_exactly _ (-1) "B").1.mp h
    simp only [List.mem_cons, List.mem_singleton, List.not_mem_nil,
      or_false] at he
    rcases he with rfl | rfl
    · exact absurd hs (by decide)
    · rcases hp with hp | ⟨x, hx, _⟩
      · exact FVal.noConfusion hp
      · exact FVal.noConfusion hx

/-- C6: every emitted row copies the base and target cells unchanged
from the entry it came from, and its growth column is the rate times
100 rounded to two decimals for a finite rate, and `+inf` for a
`+inf` rate. -/
theorem buildResults_row_contents (entries : List GrowthEntry) (m : ℚ)
    (r : ResultRow) (hr : r ∈ build_qoq_result_dataframe entries m) :
    ∃ e ∈ entries, r.stock = e.stock ∧ r.baseV = e.base ∧
      r.targetV = e.target ∧
      ((∃ x : ℚ, e.rate = FVal.num x ∧
          r.growthPct = FVal.num (round2 (x * 100))) ∨
        (e.rate = FVal.pinf ∧ r.growthPct = FVal.pinf)) := by
  obtain ⟨e, he, hp, rfl⟩ := (mem_build_iff entries m r).1 hr
  refine ⟨e, he, rfl, rfl, rfl, ?_⟩
  rcases (fge_num_iff _ _).1 hp with h | ⟨x, hx, _⟩
  · right
    exact ⟨h, by simp [emitRow, h, FVal.fmul100, fround2]⟩
  · left
    exact ⟨x, hx, by simp [emitRow, hx, FVal.fmul100, fround2]⟩

/-- Witness for `buildResults_row_contents`: the single passing entry
(base 100, target 150, rate 1/2) yields a row carrying 100, 150 and
the rounded percentage 50. -/
theorem buildResults_row_contents_witness :
    ∃ e ∈ [(⟨"A", some 100, some 150, FVal.num (1 / 2)⟩ : GrowthEntry)],
      (ResultRow.mk "A" (some 100) (some 150) (FVal.num 50)).stock = e.stock ∧
      (ResultRow.mk "A" (some 100) (some 150) (FVal.num 50)).baseV = e.base ∧
      (ResultRow.mk "A" (some 100) (some 150) (FVal.num 50)).targetV = e.target ∧
      ((∃ x : ℚ, e.rate = FVal.num x ∧
          (ResultRow.mk "A" (some 100) (some 150) (FVal.num 50)).growthPct =
            FVal.num (round2 (x * 100))) ∨
        (e.rate = FVal.pinf ∧
          (ResultRow.mk "A" (some 100) (some 150) (FVal.num 50)).growthPct =
            FVal.pinf)) :=
  buildResults_row_contents
    [⟨"A", some 100, some 150, FVal.num (1 / 2)⟩] 0
    ⟨"A", some 100, some 150, FVal.num 50⟩
    (by norm_num [build_qoq_result_dataframe, List.filter, FVal.fge, emitRow,
      FVal.fmul100, fround2, round2, roundHalfEven])

/-- C7: raising the threshold never adds a passing row: for thresholds
`t1 ≤ t2`, every row of the output at `t2` is also a row of the output
at `t1`. -/
theorem buildResults_monotone (entries : List GrowthEntry) (t1 t2 : ℚ)
    (h : t1 ≤ t2) (r : ResultRow)
    (hr : r ∈ build_qoq_result_dataframe entries t2) :
    r ∈ build_qoq_result_dataframe entries t1 := by
  obtain ⟨e, he, hp, rfl⟩ := (mem_build_iff entries t2 r).1 hr
  exact (mem_build_iff entries t1 _).2 ⟨e, he, fge_num_mono h hp, rfl⟩

/-- Witness for `buildResults_monotone` at thresholds `0 ≤ 1/4`. -/
theorem buildResults_monotone_witness :
    ResultRow.mk "A" (some 100) (some 150) (FVal.num 50) ∈
      build_qoq_result_dataframe
        [⟨"A", some 100, some 150, FVal.num (1 / 2)⟩] 0 :=
  buildResults_monotone
    [⟨"A", some 100, some 150, FVal.num (1 / 2)⟩] 0 (1 / 4)
    (by norm_num) ⟨"A", some 100, some 150, FVal.num 50⟩
    (by norm_num [build_qoq_result_dataframe, List.filter, FVal.fge, emitRow,
      FVal.fmul100, fround2, round2, roundHalfEven])

/-! ## Claims about the output ordering -/

/-- C4 counterexample: two stocks "A" then "B" with the same growth rate
1/2 come out of the builder in the order "B", "A" — equal-growth rows
appear in the reverse of their original stock order, not in their
original order, because pandas reverses an ascending argsort. -/
theorem buildResults_tie_order_counterexample :
    ((build_qoq_result_dataframe
        [⟨"A", some 100, some 150, FVal.num (1 / 2)⟩,
         ⟨"B", some 200, some 300, FVal.num (1 / 2)⟩] 0).map ResultRow.stock
      = ["B", "A"]) ∧
    (emitRow ⟨"A", some 100, some 150, FVal.num (1 / 2)⟩).growthPct =
      (emitRow ⟨"B", some 200, some 300, FVal.num (1 / 2)⟩).growthPct ∧
    (["B", "A"] : List String) ≠ ["A", "B"] := by
  refine ⟨?_, rfl, by decide⟩
  norm_num [build_qoq_result_dataframe, List.filter, FVal.fge, emitRow,
    FVal.fmul100, fround2, round2, roundHalfEven, List.insertionSort,
    List.orderedInsert, rowLe, FVal.npLe]

/-- C4 amended: for every input, the builder's rows are sorted in
descending order of the growth-percentage column, and the output is a
function of the input series and threshold alone, hence deterministic.
The order among rows with exactly equal growth percentage is *not*
guaranteed to be their original stock order: the counterexample above
shows two tied rows coming out reversed, and pandas' default quicksort
argsort leaves the tie order implementation-defined on larger frames. -/
theorem buildResults_ordering (entries : List GrowthEntry) (m : ℚ) :
    (build_qoq_result_dataframe entries m).Sorted
      (fun a b => FVal.npLe b.growthPct a.growthPct = true) :=
  List.pairwise_reverse.mpr (List.sorted_insertionSort rowLe _)

/-- C10: the pass/fail decision uses the exact un-rounded growth
fraction while the displayed column and the sort key use the rounded
percentage.  Concretely: growth 29999/100000 against threshold 3/10 is
excluded although its displayed percentage, 30, equals threshold * 100;
and two rows whose raw growths differ (300004/1000000 > 300001/1000000)
but round to the same percentage are ordered as an exact tie (reverse
original order), not by raw growth. -/
theorem buildResults_rounded_display_vs_raw_filter :
    (build_qoq_result_dataframe
        [⟨"C", some 100000, some 129999, FVal.num (29999 / 100000)⟩]
        (3 / 10) = []) ∧
    (emitRow ⟨"C", some 100000, some 129999,
        FVal.num (29999 / 100000)⟩).growthPct = FVal.num 30 ∧
    ((30 : ℚ) = (3 / 10) * 100) ∧
    ((build_qoq_result_dataframe
        [⟨"D", some 1000000, some 1300004, FVal.num (300004 / 1000000)⟩,
         ⟨"E", some 1000000, some 1300001, FVal.num (300001 / 1000000)⟩]
        0).map ResultRow.stock = ["E", "D"]) ∧
    ((300001 : ℚ) / 1000000 < 300004 / 1000000) := by
  refine ⟨?_, ?_, by norm_num, ?_, by norm_num⟩
  · norm_num [build_qoq_result_dataframe, List.filter, FVal.fge]
  · norm_num [emitRow, FVal.fmul100, fround2, round2, roundHalfEven]
  · norm_num [build_qoq_result_dataframe, List.filter, FVal.fge, emitRow,
      FVal.fmul100, fround2, round2, roundHalfEven, List.insertionSort,
      List.orderedInsert, rowLe, FVal.npLe]

/-! ## Claims about the evaluator and the dispatcher -/

/-- C5: the QoQ evaluator fails with an unknown-metric error iff the
criterion's metric is not one of the three bundle metric names; the
metric check comes first.  With a valid metric it fails with an
unknown-period error iff the base or target quarter is absent from the
resolved table's columns, and with both quarters present it succeeds. -/
theorem evaluateQoQGrowth_error_conditions (fd : FinancialData)
    (c : QoQCriteria) :
    ((∃ m, execute_qoq_growth fd c = .error (.unknownMetric m)) ↔
      c.metric ∉ ["매출액", "영업이익", "당기순이익"]) ∧
    (∀ df, metric_map fd c.metric = some df →
      ((∃ q, execute_qoq_growth fd c = .error (.unknownPeriod q)) ↔
        (c.base_quarter ∉ df.columns ∨ c.target_quarter ∉ df.columns))) ∧
    (∀ df, metric_map fd c.metric = some df →
      c.base_quarter ∈ df.columns → c.target_quarter ∈ df.columns →
      ∃ rows, execute_qoq_growth fd c = .ok rows) := by
  have hmapiff : metric_map fd c.metric = none ↔
      c.metric ∉ ["매출액", "영업이익", "당기순이익"] := by
    simp only [List.mem_cons, List.not_mem_nil, or_false]
    unfold metric_map
    by_cases h1 : c.metric = "영업이익" <;> by_cases h2 : c.metric = "매출액" <;>
      by_cases h3 : c.metric = "당기순이익" <;> simp [h1, h2, h3]
  refine ⟨?_, ?_, ?_⟩
  · constructor
    · rintro ⟨m, hm⟩
      rw [← hmapiff]
      cases hmap : metric_map fd c.metric with
      | none => rfl
      | some df =>
          exfalso
          unfold execute_qoq_growth at hm
          rw [hmap] at hm
          unfold get_quarterly_data at hm
          by_cases hb : c.base_quarter ∈ df.columns <;>
            by_cases ht : c.target_quarter ∈ df.columns <;>
            simp [hb, ht] at hm
    · intro h
      refine ⟨c.metric, ?_⟩
      unfold execute_qoq_growth
      rw [hmapiff.mpr h]
  · intro df hmap
    unfold execute_qoq_growth get_quarterly_data
    rw [hmap]
    by_cases hb : c.base_quarter ∈ df.columns <;>
      by_cases ht : c.target_quarter ∈ df.columns <;>
      simp [hb, ht]
  · intro df hmap hb ht
    unfold execute_qoq_growth get_quarterly_data
    rw [hmap]
    simp [hb, ht]

/-- Witness for `evaluateQoQGrowth_error_conditions` on a one-stock,
two-quarter bundle: metric "EBITDA" yields an unknown-metric error, and
metric "매출액" with both quarters present succeeds. -/
theorem evaluateQoQGrowth_error_conditions_witness :
    (∃ m, execute_qoq_growth
        ⟨⟨["2023/1Q", "2023/2Q"],
           [("A", [("2023/1Q", some 100), ("2023/2Q", some 150)])]⟩,
          ⟨["2023/1Q", "2023/2Q"],
           [("A", [("2023/1Q", some 100), ("2023/2Q", some 150)])]⟩,
          ⟨["2023/1Q", "2023/2Q"],
           [("A", [("2023/1Q", some 100), ("2023/2Q", some 150)])]⟩⟩
        ⟨"EBITDA", "2023/1Q", "2023/2Q", 1⟩ =
        .error (.unknownMetric m)) ∧
    (∃ rows, execute_qoq_growth
        ⟨⟨["2023/1Q", "2023/2Q"],
           [("A", [("2023/1Q", some 100), ("2023/2Q", some 150)])]⟩,
          ⟨["2023/1Q", "2023/2Q"],
           [("A", [("2023/1Q", some 100), ("2023/2Q", some 150)])]⟩,
          ⟨["2023/1Q", "2023/2Q"],
           [("A", [("2023/1Q", some 100), ("2023/2Q", some 150)])]⟩⟩
        ⟨"매출액", "2023/1Q", "2023/2Q", 1⟩ = .ok rows) := by
  constructor
  · exact (evaluateQoQGrowth_error_conditions _ _).1.mpr (by decide)
  · exact (evaluateQoQGrowth_error_conditions _ _).2.2 _ rfl
      (by decide) (by decide)

/-- C3: the dispatcher isolates per-criterion failures.  The output
mapping has exactly the input criteria names, in order, and each name's
result is computed from its own criterion alone; a criterion whose kind
has no registered evaluator is reported by name with an empty result,
and a criterion whose evaluator raises any error is reported by name
with an empty result; a successful criterion contributes its rows
untouched.  `execute_strategy` is a total function, so the batch is
never aborted. -/
theorem dispatch_isolates_failures (fd : FinancialData)
    (strategies : List (String × Criteria)) :
    ((run_all_active_strategies fd strategies).map Prod.fst =
      strategies.map Prod.fst) ∧
    (run_all_active_strategies fd strategies =
      strategies.map fun p => (p.1, (execute_strategy fd p.1 p.2).2)) ∧
    (∀ name c, execution_map_has (Criteria.type c) = false →
      execute_strategy fd name c =
        ([Report.unknownKind name (Criteria.type c)], [])) ∧
    (∀ name c e, execution_map_has (Criteria.type c) = true →
      run_executor fd c = .error e →
      execute_strategy fd name c = ([Report.execError name e], [])) ∧
    (∀ name c rows, execution_map_has (Criteria.type c) = true →
      run_executor fd c = .ok rows →
      execute_strategy fd name c = ([], rows)) := by
  refine ⟨?_, rfl, ?_, ?_, ?_⟩
  · simp [run_all_active_strategies]
  · intro name c h
    simp [execute_strategy, h]
  · intro name c e h he
    simp [execute_strategy, h, he]
  · intro name c rows h hr
    simp [execute_strategy, h, hr]

/-- Witness for `dispatch_isolates_failures` on an empty bundle: an
unregistered kind is reported and yields an empty result, an evaluator
error (unknown metric) is reported and yields an empty result, and the
two-strategy batch maps both names. -/
theorem dispatch_isolates_failures_witness :
    (execute_strategy ⟨⟨[], []⟩, ⟨[], []⟩, ⟨[], []⟩⟩ "s1"
        (Criteria.unknown "TTM_Filter") =
      ([Report.unknownKind "s1" "TTM_Filter"], [])) ∧
    (execute_strategy ⟨⟨[], []⟩, ⟨[], []⟩, ⟨[], []⟩⟩ "s2"
        (Criteria.qoq ⟨"EBITDA", "2023/1Q", "2023/2Q", 1⟩) =
      ([Report.execError "s2" (EvalError.unknownMetric "EBITDA")], [])) ∧
    ((run_all_active_strategies ⟨⟨[], []⟩, ⟨[], []⟩, ⟨[], []⟩⟩
        [("s1", Criteria.unknown "TTM_Filter"),
         ("s2", Criteria.qoq ⟨"EBITDA", "2023/1Q", "2023/2Q", 1⟩)]).map
        Prod.fst = ["s1", "s2"]) := by
  refine ⟨?_, ?_, ?_⟩
  · exact (dispatch_isolates_failures ⟨⟨[], []⟩, ⟨[], []⟩, ⟨[], []⟩⟩ []).2.2.1
      "s1" (Criteria.unknown "TTM_Filter") (by decide)
  · exact (dispatch_isolates_failures ⟨⟨[], []⟩, ⟨[], []⟩, ⟨[], []⟩⟩ []).2.2.2.1
      "s2" (Criteria.qoq ⟨"EBITDA", "2023/1Q", "2023/2Q", 1⟩)
      (EvalError.unknownMetric "EBITDA") rfl rfl
  · exact (dispatch_isolates_failures ⟨⟨[], []⟩, ⟨[], []⟩, ⟨[], []⟩⟩
      [("s1", Criteria.unknown "TTM_Filter"),
       ("s2", Criteria.qoq ⟨"EBITDA", "2023/1Q", "2023/2Q", 1⟩)]).1

/-! ## Claim about the orchestrator -/

/-- C8: on a loaded service (the `Ready` state), running all active
strategies leaves the state unchanged and a second run on the returned
state yields exactly the same output mapping — same keys, same rows,
same order. -/
theorem runAllActiveStrategies_idempotent (s : QuantScreeningService) :
    s.run.2 = s ∧ (s.run.2).run.1 = s.run.1 :=
  ⟨rfl, rfl⟩
